import Mathlib

/-!
Verification of the 1C Client-Bank Exchange encoder and related helpers of the
`modulbank` Python library, as a shallow embedding in Lean 4.

Python values that may appear in a section field are modelled by `PyValue`;
dates, times and decimals are modelled structurally (a `datetime.date` by its
year/month/day, a `decimal.Decimal` by its sign, coefficient and decimal
scale, i.e. the negated exponent).  Machine-level notions (interned strings,
object identity) do not influence the translated code paths and are not
modelled.  Coefficients are unbounded naturals, matching Python's unbounded
integers; the default `decimal` context precision of 28 digits, against which
`quantize` checks its result, is modelled in `quantize01E`.
-/

namespace Modulbank

/-- Calendar date as stored in a Python `datetime.date` (year, month, day). -/
structure PyDate where
  year : Nat
  month : Nat
  day : Nat
deriving DecidableEq, Repr

/-- Wall-clock time as stored in a Python `datetime.time` (hour, minute, second). -/
structure PyTime where
  hour : Nat
  minute : Nat
  second : Nat
deriving DecidableEq, Repr

/-- A Python `decimal.Decimal` with exponent `-scale`: the numeric value is
`(if sign then -1 else 1) * coeff / 10^scale`.  Python keeps the sign separate
from the coefficient (so `-0.00` is representable), which we mirror. -/
structure PyDecimal where
  sign : Bool
  coeff : Nat
  scale : Nat
deriving DecidableEq, Repr

/-- A dynamically typed Python value stored in a section field.  The
constructors cover the types the library actually stores (`None`, `str`,
`datetime.date`, `datetime.time`, `Decimal`) plus `int` as a representative
of a type the formatter does not special-case. -/
inductive PyValue where
  | none
  | str (s : String)
  | date (d : PyDate)
  | time (t : PyTime)
  | dec (d : PyDecimal)
  | int (n : Int)
deriving DecidableEq, Repr

/-- Zero-pad a natural to two digits, as `strftime` and decimal printing do. -/
def pad2 (n : Nat) : String :=
  if n < 10 then "0" ++ toString n else toString n

/-- Zero-pad a natural to four digits, as `strftime` with `%Y` does. -/
def pad4 (n : Nat) : String :=
  if n < 10 then "000" ++ toString n
  else if n < 100 then "00" ++ toString n
  else if n < 1000 then "0" ++ toString n
  else toString n

/-- Translation of `value.strftime('%d.%m.%Y')` from
`client_bank_exchange.py` line 47. -/
def strftimeDate (d : PyDate) : String :=
  pad2 d.day ++ "." ++ pad2 d.month ++ "." ++ pad4 d.year

/-- Translation of `value.strftime('%H:%M:%S')` from
`client_bank_exchange.py` line 49. -/
def strftimeTime (t : PyTime) : String :=
  pad2 t.hour ++ ":" ++ pad2 t.minute ++ ":" ++ pad2 t.second

/-- Coefficient of the rescaling step of
`Decimal.quantize(Decimal('.01'), rounding=ROUND_HALF_DOWN)` (the
`Decimal._rescale` part): the coefficient of the result decimal of scale 2.
When the scale is at most 2 the value is scaled up exactly; otherwise it is
divided by `10^(scale-2)` and rounded to the nearest integer, ties going
towards zero (`ROUND_HALF_DOWN` acts on the magnitude, the sign being kept
separately).  `quantize` itself additionally checks the rescaled coefficient
against the context precision; that check is `quantize01E`. -/
def quant2coeff (c : Nat) (s : Nat) : Nat :=
  if s ≤ 2 then c * 10 ^ (2 - s)
  else
    let d := 10 ^ (s - 2)
    c / d + (if d < 2 * (c % d) then 1 else 0)

/-- Rescale result of `value.quantize(Decimal('.01'), rounding=ROUND_HALF_DOWN)`
from `client_bank_exchange.py` line 51: the decimal returned on the branch
where `quantize` does not raise.  The context-precision check that can make
`quantize` raise instead is modelled by `quantize01E`. -/
def quantize01 (d : PyDecimal) : PyDecimal :=
  { sign := d.sign, coeff := quant2coeff d.coeff d.scale, scale := 2 }

/-- Error-aware translation of
`value.quantize(Decimal('.01'), rounding=ROUND_HALF_DOWN)` under Python's
default decimal context (precision 28): after rescaling, `quantize` raises
`InvalidOperation` when the result coefficient has more than 28 digits,
i.e. is at least `10^28`; otherwise it returns the rescaled decimal. -/
def quantize01E (d : PyDecimal) : Except String PyDecimal :=
  let q := quant2coeff d.coeff d.scale
  if 10 ^ 28 ≤ q then
    .error "InvalidOperation: quantize result has too many digits for current context"
  else
    .ok { sign := d.sign, coeff := q, scale := 2 }

/-- Python `str()` of a `Decimal` with exponent `-2`: sign, integer digits,
a dot, then exactly two fractional digits. -/
def decimal2Str (d : PyDecimal) : String :=
  (if d.sign then "-" else "") ++ toString (d.coeff / 100) ++ "." ++ pad2 (d.coeff % 100)

/-- Translation of `BaseSection.__format_value` (`client_bank_exchange.py`
lines 44-52) on the non-raising domain: dates, times and decimals are
rendered to strings; every other value (including `None` and values of
unsupported types) is returned unchanged by the final `return value`.  For a
decimal this gives the string of the rescale result, which is what the
source returns whenever its `quantize` call does not raise; the error path
of `quantize` is carried by `formatValueE` via `quantize01E`. -/
def formatValue : PyValue → PyValue
  | .date d => .str (strftimeDate d)
  | .time t => .str (strftimeTime t)
  | .dec d => .str (decimal2Str (quantize01 d))
  | v => v

/-- Error-aware translation of `BaseSection.__format_value`: the source body
contains no `raise` statement of its own, so every non-decimal branch
produces a normal result (`Except.ok`); the decimal branch propagates the
`InvalidOperation` that `Decimal.quantize` raises under the default context
for an over-wide result coefficient (`quantize01E`). -/
def formatValueE : PyValue → Except String PyValue
  | .date d => .ok (.str (strftimeDate d))
  | .time t => .ok (.str (strftimeTime t))
  | .dec d => (quantize01E d).map (fun q => .str (decimal2Str q))
  | v => .ok v

/-- Python `str()` as applied by `"{}={}\n".format(name, value)` to the
result of `__format_value`.  After formatting, only strings (and pass-through
values of unsupported types) reach this point; the other branches give the
default Python renderings so the function stays total. -/
def pyStr : PyValue → String
  | .none => "None"
  | .str s => s
  | .date d => pad4 d.year ++ "-" ++ pad2 d.month ++ "-" ++ pad2 d.day
  | .time t => strftimeTime t
  | .dec d => decimal2Str d
  | .int n => toString n

/-- A section of the exchange document: the class-level declared field list
(`_fields`), the mandatory subset (`_mandatory_fields`), and the per-instance
field state (`self.__dict__`), modelled as a total map from field name to
value (fields a constructor does not override are `None`). -/
structure Section where
  fields : List String
  mandatory : List String
  state : String → PyValue

/-- Translation of the `BaseSection.document` property
(`client_bank_exchange.py` lines 21-42): a first loop over the mandatory
fields (a `None` value replaced by the empty string before formatting), then
a loop over all declared fields skipping those that are mandatory or unset. -/
def Section.document (sec : Section) : String :=
  let s := sec.mandatory.foldl
    (fun s name =>
      let value := sec.state name
      let value := if value = PyValue.none then PyValue.str "" else value
      s ++ (name ++ "=" ++ pyStr (formatValue value) ++ "\n")) ""
  sec.fields.foldl
    (fun s name =>
      if sec.mandatory.contains name || sec.state name == PyValue.none then s
      else s ++ (name ++ "=" ++ pyStr (formatValue (sec.state name)) ++ "\n")) s

/-- State-passing translation of the `document` property.  The source body
only reads `self.__dict__` and mutates the local accumulator `s`; it contains
no assignment to `self`, so the outgoing object state is the incoming one. -/
def Section.documentSt (sec : Section) : String × Section :=
  (sec.document, sec)

/-- Assignment `section.<name> = value` on a section instance. -/
def Section.setField (sec : Section) (name : String) (v : PyValue) : Section :=
  { sec with state := fun n => if n = name then v else sec.state n }

/-- Declared field order of `GeneralSection` (`_fields`, line 59). -/
def generalFields : List String :=
  ["ВерсияФормата", "Кодировка", "Отправитель", "Получатель", "ДатаСоздания", "ВремяСоздания"]

/-- Mandatory subset of `GeneralSection` (`_mandatory_fields`, line 60). -/
def generalMandatory : List String :=
  ["ВерсияФормата", "Кодировка", "Отправитель"]

/-- A freshly constructed `GeneralSection` (lines 62-72).  The constructor
reads the system clock; the clock readings `today` and `now` are explicit
parameters of the translation. -/
def generalSection (today : PyDate) (now : PyTime) : Section :=
  { fields := generalFields
    mandatory := generalMandatory
    state := fun n =>
      if n = "ВерсияФормата" then .str "1.02"
      else if n = "Кодировка" then .str "Windows"
      else if n = "Отправитель" then .str "modulbank_python"
      else if n = "ДатаСоздания" then .date today
      else if n = "ВремяСоздания" then .time now
      else .none }

/-- Declared field order of `FilterSection` (`_fields`, line 79). -/
def filterFields : List String :=
  ["ДатаНачала", "ДатаКонца", "РасчСчет", "Документ"]

/-- Mandatory subset of `FilterSection` (`_mandatory_fields`, line 80). -/
def filterMandatory : List String :=
  ["ДатаНачала", "ДатаКонца", "РасчСчет"]

/-- A freshly constructed `FilterSection` (lines 82-89): both date-range
bounds default to today's date, everything else to `None`. -/
def filterSection (today : PyDate) : Section :=
  { fields := filterFields
    mandatory := filterMandatory
    state := fun n =>
      if n = "ДатаНачала" then .date today
      else if n = "ДатаКонца" then .date today
      else .none }

/-- Declared field order of `BalancesSection` (`_fields`, lines 96-97). -/
def balancesFields : List String :=
  ["ДатаНачала", "ДатаКонца", "РасчСчет", "НачальныйОстаток", "ВсегоПоступило", "ВсегоСписано",
   "КонечныйОстаток"]

/-- A freshly constructed `BalancesSection` (lines 92-104): no mandatory
fields, every declared field `None`. -/
def balancesSection : Section :=
  { fields := balancesFields
    mandatory := []
    state := fun _ => .none }

/-- Declared field order of `DocumentSection` (`_fields`, lines 111-122). -/
def documentFields : List String :=
  ["Номер", "Дата", "Сумма", "КвитанцияДата", "КвитанцияВремя", "КвитанцияСодержание",
   "ПлательщикСчет", "ДатаСписано", "Плательщик", "ПлательщикИНН", "Плательщик1", "Плательщик2",
   "Плательщик3", "Плательщик4", "ПлательщикРасчСчет", "ПлательщикБанк1", "ПлательщикБанк2",
   "ПлательщикБИК", "ПлательщикКорсчет", "ПолучательСчет", "ДатаПоступило", "Получатель",
   "ПолучательИНН", "Получатель1", "Получатель2", "Получатель3", "Получатель4",
   "ПолучательРасчСчет", "ПолучательБанк1", "ПолучательБанк2", "ПолучательБИК",
   "ПолучательКорсчет", "ВидПлатежа", "ВидОплаты", "Код", "НазначениеПлатежа",
   "НазначениеПлатежа1", "НазначениеПлатежа2", "НазначениеПлатежа3", "НазначениеПлатежа4",
   "НазначениеПлатежа5", "НазначениеПлатежа6", "СтатусСоставителя", "ПлательщикКПП",
   "ПолучательКПП", "ПоказательКБК", "ОКАТО", "ПоказательОснования", "ПоказательПериода",
   "ПоказательНомера", "ПоказательДаты", "ПоказательТипа", "Очередность", "СрокАкцепта",
   "ВидАккредитива", "СрокПлатежа", "УсловиеОплаты1", "УсловиеОплаты2", "УсловиеОплаты3",
   "ПлатежПоПредст", "ДополнУсловия", "НомерСчетаПоставщика", "ДатаОтсылкиДок"]

/-- Mandatory subset of `DocumentSection` (`_mandatory_fields`, lines 123-128). -/
def documentMandatory : List String :=
  ["Номер", "Дата", "Сумма", "ПлательщикСчет", "Плательщик", "ПлательщикИНН", "Плательщик1",
   "ПлательщикРасчСчет", "ПлательщикБанк1", "ПлательщикБИК", "ПлательщикКорсчет",
   "ПолучательСчет", "Получатель", "ПолучательИНН", "Получатель1", "ПолучательРасчСчет",
   "ПолучательБанк1", "ПолучательБИК", "ПолучательКорсчет", "ВидОплаты", "ВидПлатежа",
   "СтатусСоставителя", "ПлательщикКПП", "ПолучательКПП", "ПоказательКБК", "ОКАТО",
   "ПоказательОснования", "ПоказательПериода", "ПоказательНомера", "ПоказательДаты"]

/-- A freshly constructed `DocumentSection` (lines 130-134): every declared
field `None`. -/
def documentSection : Section :=
  { fields := documentFields
    mandatory := documentMandatory
    state := fun _ => .none }

/-- The `ClientBankExchange` object (lines 137-146): one instance of each of
the four sections.  Field names transliterate the Cyrillic attribute names
`ОбщиеСведения`, `УсловияОтбора`, `СекцияОстатков`, `СекцияПлатежногоДокумента`. -/
structure ClientBankExchange where
  general : Section
  filterSec : Section
  balances : Section
  payment : Section

/-- A freshly constructed `ClientBankExchange` (lines 142-146); `today` and
`now` are the clock readings taken inside `GeneralSection.__init__`. -/
def mkClientBankExchange (today : PyDate) (now : PyTime) : ClientBankExchange :=
  { general := generalSection today now
    filterSec := filterSection today
    balances := balancesSection
    payment := documentSection }

/-- Translation of the `ClientBankExchange.document` property (lines
154-169): the body is the four sections in order with the payment-section
markers, spliced into `"1CClientBankExchange\n{body}КонецФайла"`. -/
def ClientBankExchange.document (e : ClientBankExchange) : String :=
  "1CClientBankExchange\n" ++
    (e.general.document ++ e.filterSec.document ++ e.balances.document ++
      "СекцияДокумент=Платежное поручение\n" ++ e.payment.document ++ "КонецДокумента\n") ++
    "КонецФайла"

/-- Short bank details (`structs.py`, class `BankShort`).  The payment path
always supplies all four attributes, which are modelled as strings. -/
structure BankShort where
  account : String
  name : String
  bic : String
  corr_acc : String
deriving DecidableEq, Repr

/-- A contractor (`structs.py`, class `Contractor`, keyword construction
path): name, tax id, optional registration code and bank details. -/
structure Contractor where
  name : String
  inn : String
  kpp : Option String
  bank : BankShort
deriving DecidableEq, Repr

/-- Translation of the `Contractor.kpp` property (`structs.py` lines
432-440): `return self.__kpp or '0'`.  Python's `or` falls through to `'0'`
whenever the stored value is falsy, i.e. `None` or the empty string. -/
def Contractor.kppProp (c : Contractor) : String :=
  match c.kpp with
  | Option.none => "0"
  | Option.some s => if s = "" then "0" else s

/-- A payment order (`structs.py`, class `PaymentOrder`): the attributes
read by the mapper.  `payment_type` defaults to `"01"`, `priority` to `"5"`
and `date` to today's date at construction time. -/
structure PaymentOrder where
  doc_num : String
  account_num : String
  amount : PyDecimal
  purpose : String
  payer : Contractor
  recipient : Contractor
  payment_type : String
  priority : String
  date : PyDate

/-- Translation of `ModulbankClient.__fill_client_bank_exchange`
(`client.py` lines 316-353): sets the filter section's `РасчСчет` and the
payment-document section's fields from the order, in source order.  The
Python function returns `None`; its effect is the updated exchange object,
which the translation returns explicitly. -/
def fillClientBankExchange (order : PaymentOrder) (e : ClientBankExchange) : ClientBankExchange :=
  { e with
    filterSec := e.filterSec.setField "РасчСчет" (.str order.account_num)
    payment :=
      let p := e.payment.setField "Номер" (.str order.doc_num)
      let p := p.setField "Дата" (.date order.date)
      let p := p.setField "Сумма" (.dec order.amount)
      let p := p.setField "НазначениеПлатежа" (.str order.purpose)
      let p := p.setField "НазначениеПлатежа1" (.str order.purpose)
      let p := p.setField "Плательщик" (.str (order.payer.inn ++ " " ++ order.payer.name))
      let p := p.setField "ПлательщикИНН" (.str order.payer.inn)
      let p := p.setField "ПлательщикКПП" (.str order.payer.kppProp)
      let p := p.setField "ПлательщикСчет" (.str order.payer.bank.account)
      let p := p.setField "ПлательщикРасчСчет" (.str order.payer.bank.account)
      let p := p.setField "ПлательщикБанк1" (.str order.payer.bank.name)
      let p := p.setField "ПлательщикБИК" (.str order.payer.bank.bic)
      let p := p.setField "ПлательщикКорсчет" (.str order.payer.bank.corr_acc)
      let p := p.setField "Получатель" (.str order.recipient.name)
      let p := p.setField "ПолучательИНН" (.str order.recipient.inn)
      let p := p.setField "ПолучательКПП" (.str order.recipient.kppProp)
      let p := p.setField "ПолучательСчет" (.str order.recipient.bank.account)
      let p := p.setField "ПолучательРасчСчет" (.str order.recipient.bank.account)
      let p := p.setField "ПолучательБанк1" (.str order.recipient.bank.name)
      let p := p.setField "ПолучательБИК" (.str order.recipient.bank.bic)
      let p := p.setField "ПолучательКорсчет" (.str order.recipient.bank.corr_acc)
      let p := p.setField "ВидОплаты" (.str order.payment_type)
      let p := p.setField "Очередность" (.str order.priority)
      p.setField "ДатаСписано" (.date order.date) }

/-- The client state built by `ModulbankClient.__init__` (`client.py` lines
159-175) when construction succeeds. -/
structure ModulbankClient where
  token : String
  sandbox_mode : Bool
  headers : List (String × String)
  page_size : Int

/-- Translation of `ModulbankClient.__init__` (`client.py` lines 159-175):
headers are assembled, then `ValueError` is raised exactly when
`page_size > 50`; the raise is modelled as `Except.error`. -/
def mkModulbankClient (token : String) (sandbox_mode : Bool) (page_size : Int) :
    Except String ModulbankClient :=
  let headers := [("Authorization", "Bearer " ++ token)]
  let headers := if sandbox_mode then headers ++ [("sandbox", "on")] else headers
  if page_size > 50 then
    .error ("page_size превышает допустимый предел в 50: " ++ toString page_size)
  else
    .ok { token := token, sandbox_mode := sandbox_mode, headers := headers,
          page_size := page_size }

/-- UTF-8 encoding of one Unicode code point, as Python's `str.encode()`
produces (bytes as naturals below 256). -/
def utf8Bytes (c : Nat) : List Nat :=
  if c < 0x80 then [c]
  else if c < 0x800 then [0xC0 + c / 64, 0x80 + c % 64]
  else if c < 0x10000 then [0xE0 + c / 4096, 0x80 + c / 64 % 64, 0x80 + c % 64]
  else [0xF0 + c / 262144, 0x80 + c / 4096 % 64, 0x80 + c / 64 % 64, 0x80 + c % 64]

/-- Byte sequence of `s.encode()` (UTF-8) for a Python string. -/
def strBytes (s : String) : List Nat :=
  s.data.flatMap (fun c => utf8Bytes c.toNat)

/-- Left rotation of a 32-bit word held in a natural. -/
def rotl32 (n x : Nat) : Nat :=
  ((x <<< n) % 2 ^ 32) ||| (x >>> (32 - n))

/-- SHA-1 message padding: append `0x80`, zero bytes up to 56 mod 64, then
the 64-bit big-endian bit length of the message. -/
def sha1Pad (msg : List Nat) : List Nat :=
  let len := msg.length
  let bitLen := len * 8
  msg ++ [0x80] ++ List.replicate ((119 - len % 64) % 64) 0 ++
    [bitLen >>> 56 &&& 255, bitLen >>> 48 &&& 255, bitLen >>> 40 &&& 255,
     bitLen >>> 32 &&& 255, bitLen >>> 24 &&& 255, bitLen >>> 16 &&& 255,
     bitLen >>> 8 &&& 255, bitLen &&& 255]

/-- Split a byte list into 64-byte chunks; the fuel argument (at least the
list length) makes the recursion structural. -/
def toChunksAux : Nat → List Nat → List (List Nat)
  | 0, _ => []
  | _, [] => []
  | fuel + 1, x :: xs => (x :: xs.take 63) :: toChunksAux fuel (xs.drop 63)

/-- Split a byte list into 64-byte chunks. -/
def toChunks (l : List Nat) : List (List Nat) :=
  toChunksAux l.length l

/-- Big-endian 32-bit word from the first four entries of a byte list. -/
def beWord (bs : List Nat) : Nat :=
  match bs with
  | b0 :: b1 :: b2 :: b3 :: _ => ((b0 * 256 + b1) * 256 + b2) * 256 + b3
  | _ => 0

/-- The 80-entry SHA-1 message schedule of one 64-byte chunk. -/
def sha1Schedule (chunk : List Nat) : List Nat :=
  let w0 := (List.range 16).map (fun i => beWord (chunk.drop (4 * i)))
  (List.range 64).foldl
    (fun w _ =>
      let n := w.length
      w ++ [rotl32 1 (w.getD (n - 3) 0 ^^^ w.getD (n - 8) 0 ^^^ w.getD (n - 14) 0 ^^^
        w.getD (n - 16) 0)])
    w0

/-- The SHA-1 round function and round constant for round `i`. -/
def sha1FK (i b c d : Nat) : Nat × Nat :=
  if i < 20 then ((b &&& c) ||| ((b ^^^ 0xFFFFFFFF) &&& d), 0x5A827999)
  else if i < 40 then (b ^^^ c ^^^ d, 0x6ED9EBA1)
  else if i < 60 then ((b &&& c) ||| (b &&& d) ||| (c &&& d), 0x8F1BBCDC)
  else (b ^^^ c ^^^ d, 0xCA62C1D6)

/-- SHA-1 compression of one chunk into the running five-word state. -/
def sha1Compress (h : Nat × Nat × Nat × Nat × Nat) (chunk : List Nat) :
    Nat × Nat × Nat × Nat × Nat :=
  let w := sha1Schedule chunk
  let (h0, h1, h2, h3, h4) := h
  let (a, b, c, d, e) := (List.range 80).foldl
    (fun (st : Nat × Nat × Nat × Nat × Nat) i =>
      let (a, b, c, d, e) := st
      let (f, k) := sha1FK i b c d
      let temp := (rotl32 5 a + f + e + k + w.getD i 0) % 2 ^ 32
      (temp, a, rotl32 30 b, c, d))
    (h0, h1, h2, h3, h4)
  ((h0 + a) % 2 ^ 32, (h1 + b) % 2 ^ 32, (h2 + c) % 2 ^ 32, (h3 + d) % 2 ^ 32,
   (h4 + e) % 2 ^ 32)

/-- SHA-1 of a byte sequence as its five 32-bit state words. -/
def sha1Words (msg : List Nat) : Nat × Nat × Nat × Nat × Nat :=
  (toChunks (sha1Pad msg)).foldl sha1Compress
    (0x67452301, 0xEFCDAB89, 0x98BADCFE, 0x10325476, 0xC3D2E1F0)

/-- Big-endian bytes of one 32-bit word. -/
def wordBytes (w : Nat) : List Nat :=
  [w >>> 24 &&& 255, w >>> 16 &&& 255, w >>> 8 &&& 255, w &&& 255]

/-- The 20-byte SHA-1 digest of a byte sequence. -/
def sha1Bytes (msg : List Nat) : List Nat :=
  let (h0, h1, h2, h3, h4) := sha1Words msg
  wordBytes h0 ++ wordBytes h1 ++ wordBytes h2 ++ wordBytes h3 ++ wordBytes h4

/-- Lower-case hexadecimal digit, as `hashlib`'s `hexdigest` uses. -/
def hexChar (n : Nat) : Char :=
  if n < 10 then Char.ofNat (48 + n) else Char.ofNat (87 + n)

/-- Two lower-case hexadecimal digits of one byte. -/
def byteHex (b : Nat) : String :=
  String.mk [hexChar (b / 16), hexChar (b % 16)]

/-- Concatenation of a list of strings. -/
def concatStrs : List String → String
  | [] => ""
  | x :: xs => x ++ concatStrs xs

/-- Translation of `hashlib.sha1(bytes).hexdigest()`: the 40-character
lower-case hexadecimal SHA-1 digest. -/
def sha1Hexdigest (msg : List Nat) : String :=
  concatStrs ((sha1Bytes msg).map byteHex)

/-- Lower-casing of one character in the ASCII range, as Python `str.lower`
acts on the hexadecimal digests and signatures this code compares. -/
def lowerAscii (c : Char) : Char :=
  if 65 ≤ c.toNat ∧ c.toNat ≤ 90 then Char.ofNat (c.toNat + 32) else c

/-- Python `str.lower()` restricted to the ASCII range, which covers the
hexadecimal digests and signatures this code compares. -/
def pyLower (s : String) : String :=
  String.mk (s.data.map lowerAscii)

/-- Translation of `NotifyRequest.check_signature` (`structs.py` lines
994-1004): SHA-1 of `token[:10] + "&" + operation_id`, compared
case-insensitively against the stored signature. -/
def checkSignature (operationId signature_ token : String) : Bool :=
  let s := token.take 10 ++ "&" ++ operationId
  let digest := sha1Hexdigest (strBytes s)
  pyLower digest == pyLower signature_

/-- The rendered line of one field: `<Name>=<FormattedValue>\n`. -/
def fieldLine (sec : Section) (n : String) : String :=
  n ++ "=" ++ pyStr (formatValue (sec.state n)) ++ "\n"

/-- Mandatory pass as the specification words it: one line per mandatory
field in the declared mandatory order, an absent value rendered as the empty
string (the line itself still emitted). -/
def mandatoryLinesSpec (sec : Section) : String :=
  concatStrs (sec.mandatory.map (fun n =>
    n ++ "=" ++ pyStr (formatValue (if sec.state n = PyValue.none then PyValue.str "" else sec.state n)) ++ "\n"))

/-- Optional pass as the specification words it: one line per declared field
that is not mandatory and whose value is not absent, in declared-field order;
no line for an absent optional field, and no mandatory field re-emitted. -/
def optionalLinesSpec (sec : Section) : String :=
  concatStrs
    ((sec.fields.filter (fun n => !sec.mandatory.contains n && !(sec.state n == PyValue.none))).map
      (fun n => fieldLine sec n))

theorem concatStrs_append (l₁ l₂ : List String) :
    concatStrs (l₁ ++ l₂) = concatStrs l₁ ++ concatStrs l₂ := by
  induction l₁ with
  | nil => simp [concatStrs]
  | cons x xs ih => simp [concatStrs, ih, String.append_assoc]

theorem foldl_emit (f : String → String) (l : List String) (init : String) :
    l.foldl (fun s n => s ++ f n) init = init ++ concatStrs (l.map f) := by
  induction l generalizing init with
  | nil => simp [concatStrs]
  | cons x xs ih => simp [concatStrs, ih, String.append_assoc]

theorem foldl_emit_skip (p : String → Bool) (f : String → String) (l : List String)
    (init : String) :
    l.foldl (fun s n => if p n then s else s ++ f n) init
      = init ++ concatStrs ((l.filter (fun n => !p n)).map f) := by
  induction l generalizing init with
  | nil => simp [concatStrs]
  | cons x xs ih =>
    by_cases h : p x
    · simp [h, ih]
    · simp [h, concatStrs, ih, String.append_assoc]

/-- C1: for every section and every field state, the rendered section is the
mandatory pass (one `<Name>=<FormattedValue>\n` line per mandatory field in
declared mandatory order, an absent value rendered as the empty string with
the line still emitted) followed by the optional pass (one line per
non-mandatory declared field with a present value, in declared-field order,
no line for an absent optional field, and no mandatory field re-emitted).
This covers the General, Filter, Balances and Payment sections, which are
instances of `Section` differing only in field lists and state. -/
theorem section_document_two_pass (sec : Section) :
    sec.document = mandatoryLinesSpec sec ++ optionalLinesSpec sec := by
  simp only [Section.document, mandatoryLinesSpec, optionalLinesSpec, fieldLine]
  rw [foldl_emit_skip, foldl_emit, String.empty_append]
  simp [Bool.not_or]

/-- C5: rendering a section is pure and deterministic.  In the state-passing
translation `documentSt` the outgoing section state equals the incoming one
(the source property only reads `self.__dict__`), and rendering the returned
state again yields byte-identical output. -/
theorem section_render_pure (sec : Section) :
    sec.documentSt.2 = sec ∧ (sec.documentSt.2.documentSt).1 = sec.documentSt.1 :=
  ⟨rfl, rfl⟩

/-- C7: a freshly constructed Balances section renders to the empty string;
it has zero mandatory fields and every declared field defaults to absent. -/
theorem balances_fresh_empty :
    balancesSection.document = "" ∧ balancesSection.mandatory = [] ∧
      (balancesSection.fields.all fun n => balancesSection.state n == PyValue.none) = true :=
  ⟨rfl, rfl, rfl⟩

/-- C4 counterexample: the formatter does not fail fast on a value of an
unsupported type.  Supplying the integer 5 (not a date, time, decimal,
string or absent value) produces a normal result: the value itself, passed
through by the source's final `return value`. -/
theorem format_value_unsupported_no_failure :
    formatValueE (PyValue.int 5) = Except.ok (PyValue.int 5) :=
  rfl

/-- C4 amended: the formatter special-cases dates, times and decimal
amounts; a value of any other type (an unsupported type such as `int`, and
likewise plain strings and absent values) is returned unchanged by the final
`return value`, and no call fails. -/
theorem format_value_pass_through :
    (∀ n : Int, formatValueE (PyValue.int n) = Except.ok (PyValue.int n)) ∧
      (∀ s : String, formatValueE (PyValue.str s) = Except.ok (PyValue.str s)) ∧
      formatValueE PyValue.none = Except.ok PyValue.none :=
  ⟨fun _ => rfl, fun _ => rfl, rfl⟩

/-- C8 counterexample: a Contractor constructed with the empty string as its
KPP does not read back that value; Python's `self.__kpp or '0'` treats the
empty string as falsy and substitutes the placeholder `'0'`. -/
theorem contractor_kpp_empty_string :
    Contractor.kppProp
        { name := "ООО Ромашка", inn := "7719617469", kpp := some "",
          bank := { account := "", name := "", bic := "", corr_acc := "" } } = "0" ∧
      Contractor.kppProp
        { name := "ООО Ромашка", inn := "7719617469", kpp := some "",
          bank := { account := "", name := "", bic := "", corr_acc := "" } } ≠ "" := by
  constructor <;> decide

/-- C8 amended: a Contractor constructed without a KPP reads back the fixed
placeholder `'0'`, and one constructed with a non-empty KPP reads back that
value (an empty-string KPP also yields the placeholder, per the
counterexample). -/
theorem contractor_kpp_property :
    (∀ n i b, Contractor.kppProp { name := n, inn := i, kpp := Option.none, bank := b } = "0") ∧
      (∀ n i k b, k ≠ "" →
        Contractor.kppProp { name := n, inn := i, kpp := some k, bank := b } = k) := by
  refine ⟨fun n i b => rfl, fun n i k b hk => ?_⟩
  simp [Contractor.kppProp, hk]

/-- Witness for C8: instantiating the amended property at the KPP value
`"771543001"` used in the repository's own tests. -/
theorem contractor_kpp_property_witness :
    ("771543001" : String) ≠ "" ∧
      Contractor.kppProp
        { name := "x", inn := "y", kpp := some "771543001",
          bank := { account := "", name := "", bic := "", corr_acc := "" } } = "771543001" :=
  ⟨by decide, contractor_kpp_property.2 "x" "y" "771543001" _ (by decide)⟩

/-- C10: constructing a client succeeds exactly when the requested page size
does not exceed 50; the constructor raises `ValueError` (modelled as
`Except.error`) precisely for larger values, and accepts 50, zero and
negative values alike. -/
theorem client_page_size_check (token : String) (sandbox : Bool) (page_size : Int) :
    (∃ c, mkModulbankClient token sandbox page_size = Except.ok c) ↔ page_size ≤ 50 := by
  unfold mkModulbankClient
  by_cases h : page_size > 50
  · simp only [if_pos h]
    constructor
    · rintro ⟨c, hc⟩
      cases hc
    · intro hle
      omega
  · simp only [if_neg h]
    constructor
    · intro
      omega
    · intro
      exact ⟨_, rfl⟩

/-- C2: a freshly constructed exchange document renders to a string that
starts with the line `1CClientBankExchange\n`, contains the literal line
`СекцияДокумент=Платежное поручение` followed by the Payment section's
rendering and the literal line `КонецДокумента`, and ends with the token
`КонецФайла` with no trailing newline after it (its last character is not a
newline). -/
theorem exchange_document_shape (today : PyDate) (now : PyTime) :
    (∃ mid,
        (mkClientBankExchange today now).document =
          "1CClientBankExchange\n" ++ mid ++ "СекцияДокумент=Платежное поручение\n" ++
            documentSection.document ++ "КонецДокумента\n" ++ "КонецФайла") ∧
      (mkClientBankExchange today now).document.data.getLast? ≠ some '\n' := by
  constructor
  · refine ⟨(generalSection today now).document ++ (filterSection today).document ++
      balancesSection.document, ?_⟩
    simp [ClientBankExchange.document, mkClientBankExchange, String.append_assoc]
  · have h : (mkClientBankExchange today now).document =
        ("1CClientBankExchange\n" ++
          ((generalSection today now).document ++ (filterSection today).document ++
            balancesSection.document ++ "СекцияДокумент=Платежное поручение\n" ++
            documentSection.document ++ "КонецДокумента\n")) ++ "КонецФайла" := rfl
    rw [h, String.data_append, List.getLast?_append_of_ne_nil _ (by decide)]
    decide

/-- C6: filling a freshly constructed exchange document from a payment order
sets the Filter section's `РасчСчет` to the order's account number and maps
the order's attributes onto the Payment-section fields, leaving the General
and Balances sections entirely unchanged and the other Filter fields
untouched.  The Python function returns `None`; its whole effect is this
state change. -/
theorem fill_exchange_effect (order : PaymentOrder) (today : PyDate) (now : PyTime) :
    let e := mkClientBankExchange today now
    let f := fillClientBankExchange order e
    f.general = e.general ∧
    f.balances = e.balances ∧
    f.filterSec.state "РасчСчет" = PyValue.str order.account_num ∧
    f.filterSec.state "ДатаНачала" = e.filterSec.state "ДатаНачала" ∧
    f.filterSec.state "ДатаКонца" = e.filterSec.state "ДатаКонца" ∧
    f.filterSec.state "Документ" = e.filterSec.state "Документ" ∧
    f.payment.state "Номер" = PyValue.str order.doc_num ∧
    f.payment.state "Дата" = PyValue.date order.date ∧
    f.payment.state "Сумма" = PyValue.dec order.amount ∧
    f.payment.state "НазначениеПлатежа" = PyValue.str order.purpose ∧
    f.payment.state "НазначениеПлатежа1" = PyValue.str order.purpose ∧
    f.payment.state "Плательщик" = PyValue.str (order.payer.inn ++ " " ++ order.payer.name) ∧
    f.payment.state "ПлательщикИНН" = PyValue.str order.payer.inn ∧
    f.payment.state "ПлательщикКПП" = PyValue.str order.payer.kppProp ∧
    f.payment.state "ПлательщикСчет" = PyValue.str order.payer.bank.account ∧
    f.payment.state "ПлательщикРасчСчет" = PyValue.str order.payer.bank.account ∧
    f.payment.state "ПлательщикБанк1" = PyValue.str order.payer.bank.name ∧
    f.payment.state "ПлательщикБИК" = PyValue.str order.payer.bank.bic ∧
    f.payment.state "ПлательщикКорсчет" = PyValue.str order.payer.bank.corr_acc ∧
    f.payment.state "Получатель" = PyValue.str order.recipient.name ∧
    f.payment.state "ПолучательИНН" = PyValue.str order.recipient.inn ∧
    f.payment.state "ПолучательКПП" = PyValue.str order.recipient.kppProp ∧
    f.payment.state "ПолучательСчет" = PyValue.str order.recipient.bank.account ∧
    f.payment.state "ПолучательРасчСчет" = PyValue.str order.recipient.bank.account ∧
    f.payment.state "ПолучательБанк1" = PyValue.str order.recipient.bank.name ∧
    f.payment.state "ПолучательБИК" = PyValue.str order.recipient.bank.bic ∧
    f.payment.state "ПолучательКорсчет" = PyValue.str order.recipient.bank.corr_acc ∧
    f.payment.state "ВидОплаты" = PyValue.str order.payment_type ∧
    f.payment.state "Очередность" = PyValue.str order.priority ∧
    f.payment.state "ДатаСписано" = PyValue.date order.date :=
  ⟨rfl, rfl, rfl, rfl, rfl, rfl, rfl, rfl, rfl, rfl, rfl, rfl, rfl, rfl, rfl, rfl, rfl, rfl,
   rfl, rfl, rfl, rfl, rfl, rfl, rfl, rfl, rfl, rfl, rfl, rfl⟩

/-- C3 counterexample: the formatter does not produce a two-decimal string
for every decimal.  For `Decimal(10^26)` (coefficient `10^26`, scale 0)
rescaling to two decimal places gives coefficient `10^28`, whose 29 digits
exceed the default context precision of 28, so `Decimal.quantize` raises
`InvalidOperation` and the formatting call fails instead of returning a
string. -/
theorem decimal_format_overflow :
    formatValueE (PyValue.dec ⟨false, 10 ^ 26, 0⟩) =
      Except.error "InvalidOperation: quantize result has too many digits for current context" := by
  rfl

/-- C3 amended: formatting a decimal whose rescaled coefficient fits the
default context precision of 28 digits (`quant2coeff c s < 10^28`; larger
results make `quantize` raise `InvalidOperation`, per the counterexample)
produces a fixed two-decimal-place string whose printed coefficient `q` is
the round-half-down quantization of the value: writing the magnitude as
`c / 10^s`, the printed `q / 100` is within half a cent of it, with the
lower bound attained at ties (`ROUND_HALF_DOWN`: a tie rounds the magnitude
down, i.e. towards zero), which the two inequalities
`2*(c*100) ≤ 2*(q*10^s) + 10^s` (ties allowed below) and
`2*(q*10^s) < 2*(c*100) + 10^s` (ties excluded above) pin down uniquely —
not half-up and not half-even.  In particular `Decimal("630170.005")`
(coefficient 630170005, scale 3) formats to `"630170.00"` and
`Decimal("100.00")` (coefficient 10000, scale 2) to `"100.00"`. -/
theorem decimal_format_half_down :
    (∀ (sg : Bool) (c s : Nat), quant2coeff c s < 10 ^ 28 →
        ∃ q : Nat,
          formatValueE (PyValue.dec ⟨sg, c, s⟩) =
            Except.ok (PyValue.str
              ((if sg then "-" else "") ++ toString (q / 100) ++ "." ++ pad2 (q % 100))) ∧
          2 * (c * 100) ≤ 2 * (q * 10 ^ s) + 10 ^ s ∧
          2 * (q * 10 ^ s) < 2 * (c * 100) + 10 ^ s) ∧
      formatValueE (PyValue.dec ⟨false, 630170005, 3⟩) =
        Except.ok (PyValue.str "630170.00") ∧
      formatValueE (PyValue.dec ⟨false, 10000, 2⟩) = Except.ok (PyValue.str "100.00") := by
  refine ⟨?_, by rfl, by rfl⟩
  intro sg c s h
  refine ⟨quant2coeff c s, ?_, ?_⟩
  · simp only [formatValueE, quantize01E]
    rw [if_neg (not_le.mpr h)]
    rfl
  by_cases hs : s ≤ 2
  · have hpow : (10 : ℕ) ^ (2 - s) * 10 ^ s = 100 := by
      rw [← pow_add, Nat.sub_add_cancel hs]
      norm_num
    have hq : quant2coeff c s * 10 ^ s = c * 100 := by
      simp only [quant2coeff, if_pos hs]
      rw [mul_assoc, hpow]
    have hp : 0 < (10 : ℕ) ^ s := pow_pos (by norm_num) s
    rw [hq]
    omega
  · push_neg at hs
    have hds : (10 : ℕ) ^ s = 100 * 10 ^ (s - 2) := by
      have h2 : 2 + (s - 2) = s := by omega
      calc (10 : ℕ) ^ s = 10 ^ (2 + (s - 2)) := by rw [h2]
        _ = 10 ^ 2 * 10 ^ (s - 2) := pow_add 10 2 (s - 2)
        _ = 100 * 10 ^ (s - 2) := by norm_num
    simp only [quant2coeff, if_neg (by omega : ¬ s ≤ 2)]
    rw [hds]
    have hd : 0 < (10 : ℕ) ^ (s - 2) := pow_pos (by norm_num) (s - 2)
    revert hd
    generalize (10 : ℕ) ^ (s - 2) = d
    intro hd
    have h0 : c % d + d * (c / d) = c := Nat.mod_add_div c d
    have hr : c % d < d := Nat.mod_lt _ hd
    rcases Nat.lt_or_ge d (2 * (c % d)) with he | he
    · rw [if_pos he]
      have hq : (c / d + 1) * (100 * d) = 100 * (d * (c / d)) + 100 * d := by ring
      rw [hq]
      generalize hX : d * (c / d) = X at h0 ⊢
      generalize hR : c % d = r at h0 hr he ⊢
      omega
    · rw [if_neg (not_lt.mpr he)]
      have hq : (c / d + 0) * (100 * d) = 100 * (d * (c / d)) := by ring
      rw [hq]
      generalize hX : d * (c / d) = X at h0 ⊢
      generalize hR : c % d = r at h0 hr he ⊢
      omega

/-- Witness for C3: the amended property instantiated at
`Decimal("630170.005")` (coefficient 630170005, scale 3), whose rescaled
coefficient 63017000 is within the context precision. -/
theorem decimal_format_half_down_witness :
    quant2coeff 630170005 3 < 10 ^ 28 ∧
      ∃ q : Nat,
        formatValueE (PyValue.dec ⟨false, 630170005, 3⟩) =
          Except.ok (PyValue.str
            ((if false then "-" else "") ++ toString (q / 100) ++ "." ++ pad2 (q % 100))) ∧
        2 * (630170005 * 100) ≤ 2 * (q * 10 ^ 3) + 10 ^ 3 ∧
        2 * (q * 10 ^ 3) < 2 * (630170005 * 100) + 10 ^ 3 :=
  ⟨by decide, decimal_format_half_down.1 false 630170005 3 (by decide)⟩

theorem lowerAscii_hexChar (n : Nat) (h : n < 16) : lowerAscii (hexChar n) = hexChar n := by
  interval_cases n <;> decide

theorem pyLower_append (a b : String) : pyLower (a ++ b) = pyLower a ++ pyLower b := by
  cases a with
  | mk la =>
    cases b with
    | mk lb =>
      show String.mk ((la ++ lb).map lowerAscii) =
        String.mk (la.map lowerAscii) ++ String.mk (lb.map lowerAscii)
      rw [List.map_append]
      rfl

theorem pyLower_byteHex (b : Nat) (h : b ≤ 255) : pyLower (byteHex b) = byteHex b := by
  have h1 : b / 16 < 16 := by omega
  have h2 : b % 16 < 16 := by omega
  show String.mk ([hexChar (b / 16), hexChar (b % 16)].map lowerAscii) = byteHex b
  rw [List.map_cons, List.map_cons, List.map_nil, lowerAscii_hexChar _ h1,
    lowerAscii_hexChar _ h2]
  rfl

theorem wordBytes_le (w : Nat) : ∀ b ∈ wordBytes w, b ≤ 255 := by
  intro b hb
  simp only [wordBytes, List.mem_cons, List.not_mem_nil, or_false] at hb
  rcases hb with h | h | h | h <;> subst h <;> exact Nat.and_le_right

theorem sha1Bytes_le (msg : List Nat) : ∀ b ∈ sha1Bytes msg, b ≤ 255 := by
  intro b hb
  simp only [sha1Bytes, List.mem_append] at hb
  rcases hb with ((((h | h) | h) | h) | h) <;> exact wordBytes_le _ _ h

theorem pyLower_hex_concat (l : List Nat) (h : ∀ b ∈ l, b ≤ 255) :
    pyLower (concatStrs (l.map byteHex)) = concatStrs (l.map byteHex) := by
  induction l with
  | nil => rfl
  | cons x xs ih =>
    show pyLower (byteHex x ++ concatStrs (xs.map byteHex)) = _
    rw [pyLower_append, pyLower_byteHex x (h x (List.mem_cons_self x xs)),
      ih (fun b hb => h b (List.mem_cons_of_mem x hb))]
    rfl

/-- The `hexdigest` translation only emits the lower-case hexadecimal
alphabet, so lower-casing it is the identity. -/
theorem pyLower_sha1Hexdigest (msg : List Nat) :
    pyLower (sha1Hexdigest msg) = sha1Hexdigest msg :=
  pyLower_hex_concat (sha1Bytes msg) (sha1Bytes_le msg)

set_option maxRecDepth 10000 in
/-- Validation of the SHA-1 embedding against the standard test vector for
the message abc. -/
theorem sha1Hexdigest_abc :
    sha1Hexdigest (strBytes "abc") = "a9993e364706816aba3e25717850c26c9cd0d89d" := by
  decide

set_option maxRecDepth 10000 in
/-- Validation of the SHA-1 embedding against the standard test vector for
the empty message. -/
theorem sha1Hexdigest_empty :
    sha1Hexdigest (strBytes "") = "da39a3ee5e6b4b0d3255bfef95601890afd80709" := by
  decide

/-- C9: the signature check succeeds exactly when the lower-case hexadecimal
SHA-1 digest of the string formed by the first 10 characters of the token,
the character `&`, and the operation id equals the stored signature compared
case-insensitively (the digest is already lower-case, so the comparison
lower-cases only the stored signature). -/
theorem check_signature_iff (operationId signature_ token : String) :
    checkSignature operationId signature_ token = true ↔
      sha1Hexdigest (strBytes (token.take 10 ++ "&" ++ operationId)) = pyLower signature_ := by
  simp only [checkSignature, pyLower_sha1Hexdigest, beq_iff_eq]

end Modulbank
